import Mathlib

/-!
Verification of the `general_mutex` repository's core: the context-verified
mutex (`src/types/context_mutex.rs`) and, for conformance comparison, the
standard-mutex-backed adapter (`src/types/std_mutex.rs`).

Shallow embedding conventions:

* The Rust `panic!` is modelled as `Except.error` carrying the panic's
  diagnostic payload (the two values interpolated into the panic message).
* `Interface::get_current_level()` is an external query; it is modelled as a
  reporter stream `rep : Nat → ContextType` together with an explicit query
  counter `q` threaded through each accessor: the accessor reads `rep q` and
  returns the incremented counter, so the number of queries an operation
  performs is visible in the result.
* A Rust closure with observable side effects is modelled as a state-threading
  function `f : Data → σ → R × σ` (`σ` is the closure-local effect state, e.g.
  a side-effect flag or an invocation counter).  An accessor that never calls
  the closure leaves `σ` untouched; one that calls it exactly once applies it
  exactly once to the state.
* `lock_mut`'s closure may rewrite the protected value, so its model returns
  the new value as well: `f : Data → σ → Data × R × σ`; the accessor returns
  the resulting mutex.  `lock` takes `&self` and cannot change the value, so
  its model returns no mutex.
-/

namespace context_mutex

/-- Diagnostic payload of the wrong-context panic in
`context_mutex.rs:146` and `:159`: the `panic!` message interpolates the
const generic `LEVEL : usize` (the expected level, a raw `usize`) and
`current_level : ContextType` (the observed level). -/
structure PanicInfo (ContextType : Type) where
  expected : Nat
  observed : ContextType
deriving DecidableEq

/-- The struct `Mutex<Interface, Data, ContextType, const LEVEL: usize>` of
`context_mutex.rs:70`.  Its only field is `data: UnsafeCell<Data>`; the
`Interface` and `ContextType` parameters are `PhantomData` (no runtime
representation) and `LEVEL` is a type-level constant, so in the embedding
they become parameters of the operations rather than fields. -/
structure Mutex (Data : Type) where
  data : Data
deriving DecidableEq

/-- `Mutex::new` (`context_mutex.rs:134`): wraps the data, nothing else. -/
def Mutex.new {Data : Type} (data : Data) : Mutex Data :=
  ⟨data⟩

/-- `Mutex::lock` (`context_mutex.rs:143`).  Parameters beyond the Rust ones:
`eq` is the caller-supplied `PartialEq<usize>` implementation on
`ContextType` (Rust's `current_level != LEVEL` is `!eq current_level LEVEL`),
`rep`/`q` model `Interface::get_current_level()` as explained above, and the
closure threads its effect state `σ`. -/
def Mutex.lock {C D σ R : Type} (eq : C → Nat → Bool) (LEVEL : Nat)
    (rep : Nat → C) (m : Mutex D) (f : D → σ → R × σ) (q : Nat) (s : σ) :
    Except (PanicInfo C) R × Nat × σ :=
  let current_level := rep q
  let q' := q + 1
  if !(eq current_level LEVEL) then
    (Except.error ⟨LEVEL, current_level⟩, q', s)
  else
    let rs := f m.data s
    (Except.ok rs.1, q', rs.2)

/-- `Mutex::lock_mut` (`context_mutex.rs:156`): same check as `lock`, then
hands the closure mutable access; the closure's replacement value becomes the
mutex's stored value. -/
def Mutex.lock_mut {C D σ R : Type} (eq : C → Nat → Bool) (LEVEL : Nat)
    (rep : Nat → C) (m : Mutex D) (f : D → σ → D × R × σ) (q : Nat) (s : σ) :
    Except (PanicInfo C) R × Mutex D × Nat × σ :=
  let current_level := rep q
  let q' := q + 1
  if !(eq current_level LEVEL) then
    (Except.error ⟨LEVEL, current_level⟩, m, q', s)
  else
    let rs := f m.data s
    (Except.ok rs.2.1, ⟨rs.1⟩, q', rs.2.2)

/-- The panic message of `context_mutex.rs:146-149` / `:159-162`:
`"Attempted to lock Mutex in level {:?} from level {:?}"` formatted with
`LEVEL` (a `usize`, whose `Debug` rendering is its decimal digits) and
`current_level` (rendered by the `ContextType`'s `Debug` implementation,
modelled by `debugFmt`). -/
def panicMessage {C : Type} (debugFmt : C → String) (p : PanicInfo C) : String :=
  "Attempted to lock Mutex in level " ++ toString p.expected ++
    " from level " ++ debugFmt p.observed

/-- The example context type from the crate documentation
(`context_mutex.rs:13-20`) and the spec's scenarios: an enum of execution
levels with the default discriminants `Interrupt = 0, Kernel = 1, ...`. -/
inductive Level : Type
  | Interrupt
  | Kernel
  | High
  | Low
  | Idle
deriving DecidableEq

/-- The discriminant of a `Level` (`*self as usize`). -/
def Level.toUsize : Level → Nat
  | .Interrupt => 0
  | .Kernel => 1
  | .High => 2
  | .Low => 3
  | .Idle => 4

/-- The documentation example's `PartialEq<usize>` for `Level`
(`context_mutex.rs:22-26`): `*self as usize == *other`. -/
def Level.eqUsize (l : Level) (n : Nat) : Bool :=
  l.toUsize == n

/-- The derived `Debug` rendering of a `Level` (the variant name). -/
def Level.debugStr : Level → String
  | .Interrupt => "Interrupt"
  | .Kernel => "Kernel"
  | .High => "High"
  | .Low => "Low"
  | .Idle => "Idle"

end context_mutex

namespace std_mutex

/-- Panic of the std-mutex adapter under its conformance-test configuration
(`std_mutex.rs:16`/`:25`): `self.0.try_lock().unwrap()` panics when the
underlying `std::sync::Mutex` is already held (`try_lock` returns
`Err(WouldBlock)` and `unwrap` aborts). -/
inductive StdPanic : Type
  | wouldBlock
deriving DecidableEq

/-- The adapter `Mutex<Data>(StdMutex<RefCell<Data>>)` of `std_mutex.rs:5`.
`held` models the lock word of the inner `std::sync::Mutex`: it is `true`
exactly while a guard from a successful acquisition is alive. -/
structure Mutex (Data : Type) where
  held : Bool
  data : Data
deriving DecidableEq

/-- `Mutex::new` (`std_mutex.rs:10`): a fresh, unheld mutex around the data. -/
def Mutex.new {Data : Type} (data : Data) : Mutex Data :=
  Mutex.mk false data

/-- `Mutex::lock` (`std_mutex.rs:14`), test configuration:
`try_lock().unwrap()` fails fatally if the mutex is held, otherwise acquires
it, runs the closure, and releases on guard drop.  The closure receives the
mutex in its held state so that a nested access it performs on the same
instance observes `held = true`. -/
def Mutex.lock {D R : Type} (m : Mutex D) (f : D → Mutex D → R) :
    Except StdPanic (R × Mutex D) :=
  if m.held then
    Except.error StdPanic.wouldBlock
  else
    let locked : Mutex D := Mutex.mk true m.data
    let r := f m.data locked
    Except.ok (r, Mutex.mk false m.data)

/-- `Mutex::lock_mut` (`std_mutex.rs:23`), test configuration: same held
check, then the closure gets mutable access (its replacement value is stored
on release). -/
def Mutex.lock_mut {D R : Type} (m : Mutex D) (f : D → Mutex D → D × R) :
    Except StdPanic (R × Mutex D) :=
  if m.held then
    Except.error StdPanic.wouldBlock
  else
    let locked : Mutex D := Mutex.mk true m.data
    let dr := f m.data locked
    Except.ok (dr.2, Mutex.mk false dr.1)

end std_mutex

open context_mutex

/-- C1: with the reporter returning a level that fails the equality test
against the target `LEVEL`, both `lock` and `lock_mut` fail fatally with the
wrong-context panic, the closure is never invoked (the result is the same for
every closure and the closure-local effect state `s` is untouched), and the
protected value is unchanged (`lock_mut` returns `m` itself). -/
theorem ctx_wrong_level_fatal {C D : Type} (eq : C → Nat → Bool)
    (LEVEL : Nat) (rep : Nat → C) (m : Mutex D) (q : Nat)
    (h : eq (rep q) LEVEL = false) :
    (∀ (σ R : Type) (s : σ) (f : D → σ → R × σ),
      Mutex.lock eq LEVEL rep m f q s =
        (Except.error ⟨LEVEL, rep q⟩, q + 1, s)) ∧
    (∀ (σ R : Type) (s : σ) (f : D → σ → D × R × σ),
      Mutex.lock_mut eq LEVEL rep m f q s =
        (Except.error ⟨LEVEL, rep q⟩, m, q + 1, s)) := by
  constructor
  · intro σ R s f
    simp [Mutex.lock, h]
  · intro σ R s f
    simp [Mutex.lock_mut, h]

/-- Witness for C1: target level `Kernel`, reporter fixed to `Interrupt`,
value `0`; the access fails fatally and the side-effect flag (here the `Bool`
state, which the closure would have set to `true`) stays `false`. -/
theorem ctx_wrong_level_fatal_witness :
    Level.eqUsize Level.Interrupt Level.Kernel.toUsize = false ∧
    Mutex.lock Level.eqUsize Level.Kernel.toUsize (fun _ => Level.Interrupt)
        (Mutex.new (0 : Nat)) (fun d _ => (d, true)) 0 false =
      (Except.error ⟨Level.Kernel.toUsize, Level.Interrupt⟩, 1, false) := by
  refine ⟨by decide, ?_⟩
  exact (ctx_wrong_level_fatal Level.eqUsize Level.Kernel.toUsize
    (fun _ => Level.Interrupt) (Mutex.new (0 : Nat)) 0 (by decide)).1
    Bool Nat false (fun d _ => (d, true))

/-- C2: with the reporter returning a level that passes the equality test
against the target `LEVEL`, `lock` and `lock_mut` succeed and invoke the
closure exactly once — the result is `Except.ok` of the closure's result on
the stored value, the final effect state is the closure's output state, and
(third conjunct) an invocation-counting closure ends with its counter
incremented by exactly one. -/
theorem ctx_right_level_invokes_once {C D : Type} (eq : C → Nat → Bool)
    (LEVEL : Nat) (rep : Nat → C) (m : Mutex D) (q : Nat)
    (h : eq (rep q) LEVEL = true) :
    (∀ (σ R : Type) (s : σ) (f : D → σ → R × σ),
      Mutex.lock eq LEVEL rep m f q s =
        (Except.ok (f m.data s).1, q + 1, (f m.data s).2)) ∧
    (∀ (σ R : Type) (s : σ) (f : D → σ → D × R × σ),
      Mutex.lock_mut eq LEVEL rep m f q s =
        (Except.ok (f m.data s).2.1, ⟨(f m.data s).1⟩, q + 1,
          (f m.data s).2.2)) ∧
    (∀ (R : Type) (g : D → R) (n : Nat),
      (Mutex.lock eq LEVEL rep m (fun d k => (g d, k + 1)) q n).2.2 = n + 1) := by
  refine ⟨?_, ?_, ?_⟩
  · intro σ R s f
    simp [Mutex.lock, h]
  · intro σ R s f
    simp [Mutex.lock_mut, h]
  · intro R g n
    simp [Mutex.lock, h]

/-- Witness for C2: target level `Kernel`, reporter fixed to `Kernel`; a
counting `lock` goes from counter `0` to exactly `1`. -/
theorem ctx_right_level_invokes_once_witness :
    Level.eqUsize Level.Kernel Level.Kernel.toUsize = true ∧
    (Mutex.lock Level.eqUsize Level.Kernel.toUsize (fun _ => Level.Kernel)
        (Mutex.new (7 : Nat)) (fun d k => (d, k + 1)) 0 0).2.2 = 1 := by
  refine ⟨by decide, ?_⟩
  exact (ctx_right_level_invokes_once Level.eqUsize Level.Kernel.toUsize
    (fun _ => Level.Kernel) (Mutex.new (7 : Nat)) 0 (by decide)).2.2
    Nat (fun d => d) 0

/-- C3: a wrong-context access fails carrying exactly the expected (target)
level and the observed current level as its payload, and `lock_mut` leaves
the stored value untouched. -/
theorem ctx_wrong_level_payload {C D : Type} (eq : C → Nat → Bool)
    (LEVEL : Nat) (rep : Nat → C) (m : Mutex D) (q : Nat)
    (h : eq (rep q) LEVEL = false) :
    (∀ (σ R : Type) (s : σ) (f : D → σ → R × σ),
      (Mutex.lock eq LEVEL rep m f q s).1 = Except.error ⟨LEVEL, rep q⟩) ∧
    (∀ (σ R : Type) (s : σ) (f : D → σ → D × R × σ),
      (Mutex.lock_mut eq LEVEL rep m f q s).1 = Except.error ⟨LEVEL, rep q⟩ ∧
      (Mutex.lock_mut eq LEVEL rep m f q s).2.1 = m) := by
  constructor
  · intro σ R s f
    simp [Mutex.lock, h]
  · intro σ R s f
    simp [Mutex.lock_mut, h]

/-- Witness for C3, the spec's scenario: target level `Kernel` over value
`0`, `lock` called with the reporter fixed to `Interrupt`; the failure
carries `(expected = Kernel as usize, observed = Interrupt)` and the stored
value remains `0`. -/
theorem ctx_wrong_level_payload_witness :
    Level.eqUsize Level.Interrupt Level.Kernel.toUsize = false ∧
    (Mutex.lock Level.eqUsize Level.Kernel.toUsize (fun _ => Level.Interrupt)
        (Mutex.new (0 : Nat)) (fun d u => (d, u)) 0 ()).1 =
      Except.error ⟨Level.Kernel.toUsize, Level.Interrupt⟩ ∧
    (Mutex.lock_mut Level.eqUsize Level.Kernel.toUsize (fun _ => Level.Interrupt)
        (Mutex.new (0 : Nat)) (fun d u => (d + 1, d, u)) 0 ()).2.1.data = 0 := by
  have hpay := ctx_wrong_level_payload Level.eqUsize Level.Kernel.toUsize
    (fun _ => Level.Interrupt) (Mutex.new (0 : Nat)) 0 (by decide)
  refine ⟨by decide, hpay.1 Unit Nat () (fun d u => (d, u)), ?_⟩
  have hm := (hpay.2 Unit Nat () (fun d u => (d + 1, d, u))).2
  rw [hm]
  rfl

/-- C4: `new v` succeeds unconditionally — it is a total function producing a
mutex that stores `v` — and for the context-verified mutex a `lock` with the
identity closure, performed while the reporter's value passes the equality
test against the target level, returns `v` unchanged. -/
theorem ctx_new_roundtrip {C D : Type} (eq : C → Nat → Bool)
    (LEVEL : Nat) (rep : Nat → C) (q : Nat)
    (h : eq (rep q) LEVEL = true) :
    (∀ (v : D), (Mutex.new v).data = v) ∧
    (∀ (v : D) (σ : Type) (s : σ),
      Mutex.lock eq LEVEL rep (Mutex.new v) (fun d t => (d, t)) q s =
        (Except.ok v, q + 1, s)) := by
  constructor
  · intro v
    rfl
  · intro v σ s
    simp [Mutex.lock, Mutex.new, h]

/-- Witness for C4: a `Kernel`-level mutex over `41`, locked from `Kernel`
with the identity closure, returns `41`. -/
theorem ctx_new_roundtrip_witness :
    Level.eqUsize Level.Kernel Level.Kernel.toUsize = true ∧
    Mutex.lock Level.eqUsize Level.Kernel.toUsize (fun _ => Level.Kernel)
        (Mutex.new (41 : Nat)) (fun d t => (d, t)) 0 () =
      (Except.ok 41, 1, ()) := by
  refine ⟨by decide, ?_⟩
  exact (ctx_new_roundtrip Level.eqUsize Level.Kernel.toUsize
    (fun _ => Level.Kernel) 0 (by decide)).2 41 Unit ()

/-- C5: for accesses from the target level, a `lock_mut` that writes `w` is
followed by a `lock` observing `w` (first conjunct), and two sequential
incrementing `lock_mut` calls raise the stored value by exactly `2`
(second conjunct). -/
theorem ctx_write_visibility {C : Type} (eq : C → Nat → Bool)
    (LEVEL : Nat) (rep : Nat → C) (q : Nat)
    (h1 : eq (rep q) LEVEL = true) (h2 : eq (rep (q + 1)) LEVEL = true) :
    (∀ (D : Type) (w : D) (m : Mutex D) (σ : Type) (s : σ),
      Mutex.lock eq LEVEL rep
          (Mutex.lock_mut eq LEVEL rep m (fun _ t => (w, (), t)) q s).2.1
          (fun d t => (d, t)) (q + 1) s =
        (Except.ok w, q + 2, s)) ∧
    (∀ (m : Mutex Nat),
      ((Mutex.lock_mut eq LEVEL rep
          (Mutex.lock_mut eq LEVEL rep m (fun d t => (d + 1, (), t)) q ()).2.1
          (fun d t => (d + 1, (), t)) (q + 1) ()).2.1).data = m.data + 2) := by
  constructor
  · intro D w m σ s
    simp [Mutex.lock, Mutex.lock_mut, h1, h2]
  · intro m
    simp [Mutex.lock_mut, h1, h2]

/-- Witness for C5, the spec's scenario: a `Kernel`-level mutex over `0`,
incremented twice via `lock_mut` from a reporter fixed to `Kernel`, holds
`2`. -/
theorem ctx_write_visibility_witness :
    Level.eqUsize Level.Kernel Level.Kernel.toUsize = true ∧
    ((Mutex.lock_mut Level.eqUsize Level.Kernel.toUsize (fun _ => Level.Kernel)
        (Mutex.lock_mut Level.eqUsize Level.Kernel.toUsize (fun _ => Level.Kernel)
          (Mutex.new (0 : Nat)) (fun d t => (d + 1, (), t)) 0 ()).2.1
        (fun d t => (d + 1, (), t)) 1 ()).2.1).data = 2 := by
  refine ⟨by decide, ?_⟩
  have h := (ctx_write_visibility Level.eqUsize Level.Kernel.toUsize
    (fun _ => Level.Kernel) 0 (by decide) (by decide)).2 (Mutex.new (0 : Nat))
  simpa [Mutex.new] using h

/-- C6: the context-verified mutex performs no re-entrance detection — a
nested `lock` (resp. `lock_mut`) on the same instance, issued from inside an
active closure while the reporter still returns the target level, passes the
verification and invokes the nested closure `g`. -/
theorem ctx_no_reentrance_check {C D : Type} (eq : C → Nat → Bool)
    (LEVEL : Nat) (rep : Nat → C) (m : Mutex D) (q q2 : Nat)
    (h1 : eq (rep q) LEVEL = true) (h2 : eq (rep q2) LEVEL = true) :
    (∀ (σ R : Type) (s : σ) (g : D → σ → R × σ),
      Mutex.lock eq LEVEL rep m
          (fun _ t => (Mutex.lock eq LEVEL rep m g q2 t, t)) q s =
        (Except.ok (Except.ok (g m.data s).1, q2 + 1, (g m.data s).2),
          q + 1, s)) ∧
    (∀ (σ R : Type) (s : σ) (g : D → σ → D × R × σ),
      Mutex.lock_mut eq LEVEL rep m
          (fun _ t => ((Mutex.lock_mut eq LEVEL rep m g q2 t).2.1.data,
            (Mutex.lock_mut eq LEVEL rep m g q2 t).1, t)) q s =
        (Except.ok (Except.ok (g m.data s).2.1), ⟨(g m.data s).1⟩,
          q + 1, s)) := by
  constructor
  · intro σ R s g
    simp [Mutex.lock, h1, h2]
  · intro σ R s g
    simp [Mutex.lock_mut, h1, h2]

/-- Witness for C6: on a `Kernel`-level mutex over `5`, a `lock` nested
inside an active `lock` closure succeeds and reads `5`. -/
theorem ctx_no_reentrance_check_witness :
    Level.eqUsize Level.Kernel Level.Kernel.toUsize = true ∧
    Mutex.lock Level.eqUsize Level.Kernel.toUsize (fun _ => Level.Kernel)
        (Mutex.new (5 : Nat))
        (fun _ t => (Mutex.lock Level.eqUsize Level.Kernel.toUsize
          (fun _ => Level.Kernel) (Mutex.new (5 : Nat))
          (fun d u => (d, u)) 1 t, t)) 0 () =
      (Except.ok (Except.ok 5, 2, ()), 1, ()) := by
  refine ⟨by decide, ?_⟩
  exact (ctx_no_reentrance_check Level.eqUsize Level.Kernel.toUsize
    (fun _ => Level.Kernel) (Mutex.new (5 : Nat)) 0 1
    (by decide) (by decide)).1 Unit Nat () (fun d u => (d, u))

/-- C7: each accessor queries the reporter exactly once (the query counter
advances from `q` to `q + 1` on every path), the queried value is used only
for the comparison and then discarded (the accessor behaves identically under
the constant reporter returning just the one queried value), and the mutex
carries no lock state across calls — the only per-instance state is the
protected value, which `lock_mut` changes only to the closure's output and
only when the check passes. -/
theorem ctx_single_query_stateless {C D : Type} (eq : C → Nat → Bool)
    (LEVEL : Nat) (rep : Nat → C) (m : Mutex D) (q : Nat) :
    (∀ (σ R : Type) (s : σ) (f : D → σ → R × σ),
      (Mutex.lock eq LEVEL rep m f q s).2.1 = q + 1) ∧
    (∀ (σ R : Type) (s : σ) (f : D → σ → D × R × σ),
      (Mutex.lock_mut eq LEVEL rep m f q s).2.2.1 = q + 1) ∧
    (∀ (σ R : Type) (s : σ) (f : D → σ → R × σ),
      Mutex.lock eq LEVEL rep m f q s =
        Mutex.lock eq LEVEL (fun _ => rep q) m f q s) ∧
    (∀ (σ R : Type) (s : σ) (f : D → σ → D × R × σ),
      Mutex.lock_mut eq LEVEL rep m f q s =
        Mutex.lock_mut eq LEVEL (fun _ => rep q) m f q s) ∧
    (∀ (σ R : Type) (s : σ) (f : D → σ → D × R × σ),
      (Mutex.lock_mut eq LEVEL rep m f q s).2.1 =
        if eq (rep q) LEVEL then ⟨(f m.data s).1⟩ else m) := by
  refine ⟨?_, ?_, ?_, ?_, ?_⟩
  · intro σ R s f
    cases h : eq (rep q) LEVEL <;> simp [Mutex.lock, h]
  · intro σ R s f
    cases h : eq (rep q) LEVEL <;> simp [Mutex.lock_mut, h]
  · intro σ R s f
    rfl
  · intro σ R s f
    rfl
  · intro σ R s f
    cases h : eq (rep q) LEVEL <;> simp [Mutex.lock_mut, h]

/-- C8: on the std-mutex-backed adapter, a `lock` (resp. `lock_mut`) nested
inside an already-active access on the same instance fails fatally via the
held-state check of `try_lock().unwrap()` — for every nested closure `g` the
result is the same and `g` is never invoked (no silent serialization), and
the outer call still returns (no deadlock). -/
theorem std_reentrant_lock_fatal {D : Type} (m : std_mutex.Mutex D)
    (h : m.held = false) :
    (∀ (R : Type) (g : D → std_mutex.Mutex D → R),
      std_mutex.Mutex.lock m
          (fun _ inner => std_mutex.Mutex.lock inner g) =
        Except.ok (Except.error std_mutex.StdPanic.wouldBlock,
          std_mutex.Mutex.mk false m.data)) ∧
    (∀ (R : Type) (g : D → std_mutex.Mutex D → D × R),
      std_mutex.Mutex.lock_mut m
          (fun d inner => (d, std_mutex.Mutex.lock_mut inner g)) =
        Except.ok (Except.error std_mutex.StdPanic.wouldBlock,
          std_mutex.Mutex.mk false m.data)) := by
  constructor
  · intro R g
    simp [std_mutex.Mutex.lock, h]
  · intro R g
    simp [std_mutex.Mutex.lock_mut, h]

/-- Witness for C8, the spec's scenario: a std-backed mutex over `0`; `lock`
re-entered from inside its own closure fails fatally, and likewise for
`lock_mut`. -/
theorem std_reentrant_lock_fatal_witness :
    (std_mutex.Mutex.new (0 : Nat)).held = false ∧
    std_mutex.Mutex.lock (std_mutex.Mutex.new (0 : Nat))
        (fun _ inner => std_mutex.Mutex.lock inner (fun d _ => d)) =
      Except.ok (Except.error std_mutex.StdPanic.wouldBlock,
        std_mutex.Mutex.mk false 0) := by
  refine ⟨by decide, ?_⟩
  exact (std_reentrant_lock_fatal (std_mutex.Mutex.new (0 : Nat))
    (by decide)).1 Nat (fun d _ => d)

/-- C9: constructing the context-verified mutex performs no context check:
`new v` is a total function of the data alone (it succeeds and stores `v`
whatever the context), and a `lock` issued right after `new` still consumes
the reporter at the original index `q` — construction issued zero queries —
with the verification happening only inside the accessor, whatever level the
reporter reports. -/
theorem ctx_new_no_context_check {C D : Type} (eq : C → Nat → Bool)
    (LEVEL : Nat) (rep : Nat → C) :
    (∀ (v : D), Mutex.new v = ⟨v⟩) ∧
    (∀ (v : D) (q : Nat) (σ : Type) (s : σ),
      Mutex.lock eq LEVEL rep (Mutex.new v) (fun d t => (d, t)) q s =
        ((if eq (rep q) LEVEL then Except.ok v
          else Except.error ⟨LEVEL, rep q⟩), q + 1, s)) := by
  constructor
  · intro v
    rfl
  · intro v q σ s
    cases h : eq (rep q) LEVEL <;> simp [Mutex.lock, Mutex.new, h]

/-- C10: the accessors' decision is exactly the negation of
`current_level == LEVEL` under the caller-supplied `PartialEq<usize>`
implementation `eq` (first two conjuncts, for an arbitrary `eq`), the
failure payload keeps the target level as the raw `usize` `LEVEL`, never
converted into a `ContextType` value, and the panic message renders the
expected level through the `Debug` of `usize` (decimal digits) while the
observed level is rendered through the `ContextType`'s `Debug` — concretely,
a `Kernel`-target mutex accessed from `Interrupt` renders the expected side
as the raw number `1`, not as the variant name `Kernel`. -/
theorem ctx_decision_and_rendering {C D : Type} (eq : C → Nat → Bool)
    (LEVEL : Nat) (rep : Nat → C) (m : Mutex D) (q : Nat) :
    (∀ (σ R : Type) (s : σ) (f : D → σ → R × σ),
      (Mutex.lock eq LEVEL rep m f q s).1 =
        if eq (rep q) LEVEL then Except.ok (f m.data s).1
        else Except.error ⟨LEVEL, rep q⟩) ∧
    (∀ (σ R : Type) (s : σ) (f : D → σ → D × R × σ),
      (Mutex.lock_mut eq LEVEL rep m f q s).1 =
        if eq (rep q) LEVEL then Except.ok (f m.data s).2.1
        else Except.error ⟨LEVEL, rep q⟩) ∧
    (∀ (debugFmt : C → String) (c : C),
      panicMessage debugFmt ⟨LEVEL, c⟩ =
        "Attempted to lock Mutex in level " ++ toString LEVEL ++
          " from level " ++ debugFmt c) ∧
    panicMessage Level.debugStr ⟨Level.Kernel.toUsize, Level.Interrupt⟩ =
      "Attempted to lock Mutex in level 1 from level Interrupt" := by
  refine ⟨?_, ?_, ?_, ?_⟩
  · intro σ R s f
    cases h : eq (rep q) LEVEL <;> simp [Mutex.lock, h]
  · intro σ R s f
    cases h : eq (rep q) LEVEL <;> simp [Mutex.lock_mut, h]
  · intro debugFmt c
    rfl
  · rfl
